import Mathlib

/-!
Verification of the gamebot MCP server (src/server.py) against its
natural-language specification.

The development shallowly embeds the request-routing, response-normalization
and tool-handler logic of server.py:

* JSON-like Python values are modelled by the inductive type `PyVal`.
* The two upstream OpenAI vector-store endpoints used by the handlers are
  modelled by the `Upstream` record: each field holds the (mocked) outcome of
  one upstream call, and every function that issues upstream calls also
  returns the number of calls it issued, so that call-count properties
  ("no upstream call is made") are provable.
* Timestamps (datetime.utcnow().isoformat() in the source) are threaded as an
  opaque string parameter `now`.
* json.loads (a standard-library function) is threaded as an abstract partial
  parsing function `jp : String -> Option PyVal`; `Option.none` models a
  JSON decoding failure.
* String operations mirror Python semantics over character lists
  (`pyStrip` for str.strip, `pySlice` for s[:n], `strStarts` for
  str.startswith), so that all definitions are executable and kernel-reducible.
-/

namespace Gamebot

/-- JSON-like Python values as they appear in request bodies and responses of
server.py. Dictionaries are modelled as insertion-ordered association lists,
matching Python dict ordering semantics. -/
inductive PyVal where
  | none
  | str (s : String)
  | int (n : Int)
  | bool (b : Bool)
  | list (l : List PyVal)
  | dict (m : List (String × PyVal))

/-- Lookup of a key in an ordered association list, mirroring Python dict
subscription: the first (and in Python, only) binding of the key wins. -/
def dictGet : List (String × PyVal) → String → Option PyVal
  | [], _ => Option.none
  | (k, v) :: t, key => if k == key then some v else dictGet t key

/-- Python dict assignment d[k] = v: replaces the value in place when the key
exists (keeping the key position, as Python dicts do) and appends a new
binding at the end otherwise. -/
def setKey : List (String × PyVal) → String → PyVal → List (String × PyVal)
  | [], k, v => [(k, v)]
  | (k', v') :: t, k, v => if k' == k then (k, v) :: t else (k', v') :: setKey t k v

/-- Key lookup on a `PyVal`; non-dict values have no keys. -/
def getKey (v : PyVal) (k : String) : Option PyVal :=
  match v with
  | PyVal.dict m => dictGet m k
  | _ => Option.none

/-- Boolean key-membership test on an association list. -/
def hasKeyL (m : List (String × PyVal)) (k : String) : Bool :=
  (dictGet m k).isSome

/-- Boolean key-membership test on a `PyVal`. -/
def hasKeyB (v : PyVal) (k : String) : Bool :=
  (getKey v k).isSome

/-- Python truthiness of the modelled values, used by server.py at
"if file_info.attributes" (line 235). -/
def pyTruthy : PyVal → Bool
  | PyVal.none => false
  | PyVal.str s => !(s == "")
  | PyVal.int n => !(n == 0)
  | PyVal.bool b => b
  | PyVal.list l => !l.isEmpty
  | PyVal.dict m => !m.isEmpty

/-- Character-list core of Python str.startswith. -/
def charsStart : List Char → List Char → Bool
  | _, [] => true
  | [], _ :: _ => false
  | c :: cs, p :: ps => (c == p) && charsStart cs ps

/-- Python s.startswith(p) over characters. -/
def strStarts (s p : String) : Bool :=
  charsStart s.data p.data

/-- Python str.strip(): drop whitespace from both ends. -/
def pyStrip (s : String) : String :=
  String.mk (((s.data.dropWhile Char.isWhitespace).reverse.dropWhile Char.isWhitespace).reverse)

/-- Python s[:n] over characters. -/
def pySlice (s : String) (n : Nat) : String :=
  String.mk (s.data.take n)

/-! ## Upstream vector-store model

The search handler receives the OpenAI SDK response of
vector_stores.search; each item of its data list may expose file_id,
filename and content either as object attributes or as a plain mapping
(the repository test fixtures use attribute-style objects). server.py reads
the item-level fields with getattr, which yields the declared default for a
plain mapping (dicts do not expose their keys as attributes), and reads the
first content chunk with both hasattr and isinstance(dict) checks
(lines 145-148). The model keeps the shape distinction explicit. -/

/-- A content chunk of an upstream search item: either an SDK object with an
optional text attribute, or a plain mapping with an optional "text" key. -/
inductive Chunk where
  | obj (text : Option String)
  | map (text : Option String)

/-- Fields an upstream search item may carry. `Option.none` models an absent
attribute or key. -/
structure ItemFields where
  file_id : Option String
  filename : Option String
  content : Option (List Chunk)

/-- An upstream search item: either an SDK object exposing its fields as
attributes, or a plain mapping holding the same fields as keys. server.py
reads item-level fields only through getattr, so the fields of a
mapping-shaped item are invisible to it. -/
inductive UpItem where
  | obj (f : ItemFields)
  | map (f : ItemFields)

/-- Upstream file metadata, as returned by vector_stores.files.retrieve. -/
structure FileInfo where
  filename : Option String
  attributes : Option PyVal

/-- Mocked outcomes of the three upstream vector-store endpoints used by the
handlers. An `Except.error` models the SDK call raising an exception, with
the exception message as payload. A response object whose data attribute is
missing or falsy is modelled as the empty list, since server.py treats the
two identically (lines 131-132 and 213). -/
structure Upstream where
  searchResp : Except String (List UpItem)
  contentResp : String → Except String (List (Option String))
  fileRetrieve : String → Except String FileInfo

/-! ## Search handler (server.py lines 100-171) -/

/-- Guard of the search handler (line 116): "not query or not query.strip()".
True exactly for empty or whitespace-only queries. -/
def blankQuery (q : String) : Bool :=
  (q == "") || (pyStrip q == "")

/-- Item identifier extraction (line 136): getattr(item, "file_id", f"vs_(i)").
getattr on a plain mapping always yields the default. -/
def itemId (i : Nat) : UpItem → String
  | UpItem.obj f => f.file_id.getD ("vs_" ++ toString i)
  | UpItem.map _ => "vs_" ++ toString i

/-- Item display-name extraction (line 137):
getattr(item, "filename", f"Document (i+1)"). -/
def itemTitle (i : Nat) : UpItem → String
  | UpItem.obj f => f.filename.getD ("Document " ++ toString (i + 1))
  | UpItem.map _ => "Document " ++ toString (i + 1)

/-- Content-list extraction (line 140): getattr(item, "content", []). -/
def itemChunks : UpItem → List Chunk
  | UpItem.obj f => f.content.getD []
  | UpItem.map _ => []

/-- Text extraction from the first content chunk (lines 144-148): an object
chunk is read through its text attribute when present, a mapping chunk
through .get("text", ""); otherwise the extracted text stays "". -/
def chunkText : Chunk → String
  | Chunk.obj (some t) => t
  | Chunk.obj Option.none => ""
  | Chunk.map (some t) => t
  | Chunk.map Option.none => ""

/-- Text content of an item before the empty-content default (lines 141-148):
"" when the content list is empty, else the first chunk's text. -/
def rawChunkText (item : UpItem) : String :=
  match itemChunks item with
  | [] => ""
  | c :: _ => chunkText c

/-- Effective text content of an item (lines 150-151): the placeholder
"No content available" when the extracted text is empty. -/
def effectiveText (item : UpItem) : String :=
  if rawChunkText item == "" then "No content available" else rawChunkText item

/-- Snippet creation (lines 153-155):
text[:200] + "..." when len(text) > 200, else the text unchanged. -/
def snippet (tc : String) : String :=
  if 200 < tc.length then pySlice tc 200 ++ "..." else tc

/-- The result dictionary built for one upstream item (lines 157-162). -/
def searchMatch (i : Nat) (item : UpItem) : PyVal :=
  PyVal.dict
    [("id", PyVal.str (itemId i item)),
     ("title", PyVal.str (itemTitle i item)),
     ("text", PyVal.str (snippet (effectiveText item))),
     ("url", PyVal.str ("https://platform.openai.com/storage/files/" ++ itemId i item))]

/-- The search handler (lines 100-171). Returns the response value together
with the number of upstream vector_stores.search calls issued. A blank query
short-circuits to an empty result list with no upstream call; an upstream
exception is caught and degraded to an empty result list (lines 166-168).
The handler itself never raises, which is why its type is a plain pair and
not an `Except`. -/
def searchTool (u : Upstream) (q : String) : PyVal × Nat :=
  if blankQuery q then
    (PyVal.dict [("results", PyVal.list [])], 0)
  else
    match u.searchResp with
    | Except.error _ => (PyVal.dict [("results", PyVal.list [])], 1)
    | Except.ok items =>
      (PyVal.dict [("results", PyVal.list (items.enum.map (fun p => searchMatch p.1 p.2)))], 1)

/-- The list of matches carried by a search response value. -/
def resultsOf (v : PyVal) : List PyVal :=
  match getKey v "results" with
  | some (PyVal.list l) => l
  | _ => []

/-! ## Fetch handler (server.py lines 173-239) -/

/-- Guard of the fetch handler (line 176):
"not id or not isinstance(id, str) or not id.startswith(file_)". The
isinstance disjunct is vacuous here because the embedding types id as a
string; a non-string id never reaches the handler, see `callTool`. -/
def fetchIdInvalid (id : String) : Bool :=
  (id == "") || !(strStarts id "file_")

/-- Python exceptions that the router's error mapping (lines 516-549)
distinguishes: pydantic ValidationError, fastapi HTTPException, a FastMCP
ToolError (an object with message and code), fastapi RequestValidationError,
and any other exception carrying only its message. -/
inductive PyErr where
  | validationErr (details : PyVal)
  | httpExc (code : Nat) (detail : String)
  | toolErr (code : Nat) (msg : String)
  | reqValidationErr (errors : PyVal)
  | exc (msg : String)

/-- Python str(e) for the modelled exceptions. Only the `exc` arm is ever
observable on the wire: the error-mapping branches for the other arms
overwrite the error field (lines 523, 529, 544, 548). -/
def pyErrStr : PyErr → String
  | PyErr.validationErr _ => "validation error"
  | PyErr.httpExc c d => toString c ++ ": " ++ d
  | PyErr.toolErr _ m => m
  | PyErr.reqValidationErr _ => "validation error"
  | PyErr.exc m => m

/-- The fetch handler (lines 173-239). Returns the outcome (a document
dictionary, or the exception it raises) together with the number of upstream
calls issued (files.content and files.retrieve). An invalid id is rejected
with HTTPException(400) before any upstream call; upstream exceptions
propagate (fetch does not degrade, unlike search). -/
def fetchTool (u : Upstream) (id : String) : Except PyErr PyVal × Nat :=
  if fetchIdInvalid id then
    (Except.error (PyErr.httpExc 400 "Invalid document ID format"), 0)
  else
    match u.contentResp id with
    | Except.error msg => (Except.error (PyErr.exc msg), 1)
    | Except.ok chunks =>
      match u.fileRetrieve id with
      | Except.error msg => (Except.error (PyErr.exc msg), 2)
      | Except.ok info =>
        let file_content :=
          if chunks.isEmpty then "No content available"
          else String.intercalate "\n" (chunks.filterMap (fun c => c))
        let fname := info.filename.getD ("Document " ++ id)
        let meta : PyVal :=
          match info.attributes with
          | some a => if pyTruthy a then a else PyVal.none
          | Option.none => PyVal.none
        (Except.ok (PyVal.dict
          [("id", PyVal.str id),
           ("title", PyVal.str fname),
           ("text", PyVal.str file_content),
           ("url", PyVal.str ("https://platform.openai.com/storage/files/" ++ id)),
           ("metadata", meta)]), 2)

/-- The health_check handler (lines 76-98): a fixed liveness payload. The
construct-then-reserialize self-check of the source cannot fail on this
value and is omitted. -/
def healthResult (now : String) : PyVal :=
  PyVal.dict
    [("status", PyVal.str "ok"),
     ("timestamp", PyVal.str now),
     ("service", PyVal.str "gamebot"),
     ("version", PyVal.str "1.0.0")]

/-! ## Tool registry and tool invocation

FastMCP registers the three decorated handlers. Tool argument validation is
performed by the library against each handler's signature with pydantic;
the repository's own test suite pins the observable contract (a missing
required argument surfaces as a ValidationError that the router maps to
HTTP 422, tests/test_server.py test_search_missing_query). We model it by
`getStrArg`: an argument declared as str validates only when the supplied
value is a string. -/

/-- Names of the registered tools, in registration order (lines 76, 100, 173). -/
def toolNames : List String := ["health_check", "search", "fetch"]

/-- JSON-Schema-style object schema, as the framework derives one from a
handler signature. -/
def schemaObj (props : List (String × PyVal)) (req : List String) : PyVal :=
  PyVal.dict
    [("type", PyVal.str "object"),
     ("properties", PyVal.dict props),
     ("required", PyVal.list (req.map PyVal.str))]

/-- The registry entries exposed by the tool manager: name, description (the
handler docstring's first line) and the parameters schema derived from the
handler signature. -/
def toolsReg : List (String × String × PyVal) :=
  [("health_check", "Health check endpoint that returns the server status.",
    schemaObj [] []),
   ("search", "Search for documents using OpenAI Vector Store search.",
    schemaObj [("query", PyVal.dict [("type", PyVal.str "string")])] ["query"]),
   ("fetch", "Fetch document with security checks.",
    schemaObj [("id", PyVal.dict [("type", PyVal.str "string")])] ["id"])]

/-- Pydantic-modelled extraction of a required string argument: present and a
string, or validation fails. -/
def getStrArg (args : PyVal) (key : String) : Option String :=
  match args with
  | PyVal.dict m =>
    match dictGet m key with
    | some (PyVal.str s) => some s
    | _ => Option.none
  | _ => Option.none

/-- Pydantic v2 error payload for a missing or invalid required field, as
parsed from e.json() by the router (line 524). -/
def missingArgDetails (field : String) : PyVal :=
  PyVal.list
    [PyVal.dict
      [("type", PyVal.str "missing"),
       ("loc", PyVal.list [PyVal.str field]),
       ("msg", PyVal.str "Field required")]]

/-- tool_manager.call_tool (line 459): validates the arguments against the
named handler's signature and runs it. The outcome pairs the handler result
(or the exception raised) with the number of upstream calls issued. -/
def callTool (u : Upstream) (now name : String) (args : PyVal) :
    Except PyErr PyVal × Nat :=
  if name == "health_check" then
    (Except.ok (healthResult now), 0)
  else if name == "search" then
    match getStrArg args "query" with
    | some q => (Except.ok (searchTool u q).1, (searchTool u q).2)
    | Option.none => (Except.error (PyErr.validationErr (missingArgDetails "query")), 0)
  else if name == "fetch" then
    match getStrArg args "id" with
    | some i => fetchTool u i
    | Option.none => (Except.error (PyErr.validationErr (missingArgDetails "id")), 0)
  else
    (Except.error (PyErr.exc ("Unknown tool: " ++ name)), 0)

/-! ## Response normalization (server.py lines 476-503) -/

/-- Response normalization chain of handle_http. The interim pair mirrors the
source's response/status_code variables after the type dispatch
(lines 477-497): the None branch assigns status_code 500, every other branch
leaves the routing default 404 in place. Line 503 then assigns
status_code = 200 unconditionally, so the status produced by this chain is
always 200 - including for a None result, whose 500 is a dead store. The
timestamp is injected afterwards when the final value is a dict without one
(lines 500-501). -/
def normalizeResponse (jp : String → Option PyVal) (v : PyVal) (now : String) :
    Nat × PyVal :=
  let interim : Nat × PyVal :=
    match v with
    | PyVal.none =>
      (500, PyVal.dict [("status", PyVal.str "error"),
                        ("message", PyVal.str "No response from tool")])
    | PyVal.str s =>
      (404, match jp s with
            | some parsed => parsed
            | Option.none => PyVal.dict [("status", PyVal.str "ok"),
                                         ("message", PyVal.str s)])
    | PyVal.list l =>
      (404, PyVal.dict [("status", PyVal.str "ok"), ("result", PyVal.list l)])
    | PyVal.dict m =>
      (404, if hasKeyL m "status" then PyVal.dict m
            else PyVal.dict (setKey m "status" (PyVal.str "ok")))
    | PyVal.int n =>
      (404, PyVal.dict [("status", PyVal.str "ok"),
                        ("result", PyVal.str (toString n))])
    | PyVal.bool b =>
      (404, PyVal.dict [("status", PyVal.str "ok"),
                        ("result", PyVal.str (if b then "True" else "False"))])
  let withTs : PyVal :=
    match interim.2 with
    | PyVal.dict m =>
      if hasKeyL m "timestamp" then PyVal.dict m
      else PyVal.dict (setKey m "timestamp" (PyVal.str now))
    | x => x
  (200, withTs)

/-! ## Error mapping (server.py lines 505-549) -/

/-- Error mapping of handle_http: builds the default 500 error body, then
adjusts status and fields by exception type, in the source's branch order. -/
def errorResponse (toolName : String) (e : PyErr) (now : String) : Nat × PyVal :=
  let base : List (String × PyVal) :=
    [("status", PyVal.str "error"),
     ("error", PyVal.str ("Error executing " ++ toolName ++ ": " ++ pyErrStr e)),
     ("timestamp", PyVal.str now)]
  match e with
  | PyErr.validationErr details =>
    (422, PyVal.dict (setKey (setKey base "error" (PyVal.str "Validation error")) "details" details))
  | PyErr.httpExc code detail =>
    (code, PyVal.dict (setKey base "error" (PyVal.str detail)))
  | PyErr.toolErr code msg =>
    let st : Nat :=
      if code == 400 then 400
      else if code == 401 then 401
      else if code == 403 then 403
      else if code == 404 then 404
      else 500
    (st, PyVal.dict (setKey base "error" (PyVal.str msg)))
  | PyErr.reqValidationErr errors =>
    (422, PyVal.dict (setKey (setKey base "error" (PyVal.str "Validation error")) "details" errors))
  | PyErr.exc _ =>
    (500, PyVal.dict base)

/-! ## Request router (server.py FastMCPASGIWrapper.handle_http, lines 289-561) -/

/-- Outcome of one HTTP request: a JSON response with its status code and the
number of upstream vector-store calls issued while serving it, or the
upgrade of the connection to the persistent SSE keepalive stream
(lines 353-404), whose unbounded timer loop is outside the shallow
embedding. -/
inductive RouterOutcome where
  | json (status : Nat) (body : PyVal) (upstreamCalls : Nat)
  | sseStream

/-- Substring test, mirroring the Python expression
"text/event-stream" in accept_header (line 353). -/
def strContains (hay needle : String) : Bool :=
  match hay.splitOn needle with
  | [] => false
  | [_] => false
  | _ => true

/-- Body parsing (lines 299-305): request_data starts as an empty dict; a
non-empty body of a POST/PUT/PATCH request is parsed as JSON, and a
json.JSONDecodeError leaves the empty dict in place. -/
def requestData (jp : String → Option PyVal) (method : String) (body : Option String) :
    PyVal :=
  if method == "POST" || method == "PUT" || method == "PATCH" then
    match body with
    | some raw => (jp raw).getD (PyVal.dict [])
    | Option.none => PyVal.dict []
  else
    PyVal.dict []

/-- The capability listing sent by GET /tools (lines 330-338): a plain
dictionary with a tools list whose entries carry name, description and
parameters. -/
def toolsListResponse : PyVal :=
  PyVal.dict
    [("tools", PyVal.list (toolsReg.map (fun p =>
        PyVal.dict
          [("name", PyVal.str p.1),
           ("description", PyVal.str p.2.1),
           ("parameters", p.2.2)])))]

/-- The JSON info payload for a non-SSE GET on / or /sse (lines 407-417). -/
def rootInfo : PyVal :=
  PyVal.dict
    [("status", PyVal.str "ok"),
     ("server", PyVal.str "GameBot MCP Server"),
     ("version", PyVal.str "1.0.0"),
     ("endpoints", PyVal.dict
       [("mcp_initialize", PyVal.dict [("method", PyVal.str "POST"), ("path", PyVal.str "/")]),
        ("search", PyVal.dict [("method", PyVal.str "POST"), ("path", PyVal.str "/search")]),
        ("fetch", PyVal.dict [("method", PyVal.str "POST"), ("path", PyVal.str "/fetch")]),
        ("health", PyVal.dict [("method", PyVal.str "GET"), ("path", PyVal.str "/health")])])]

/-- The JSON-RPC result envelope for an initialize request (lines 422-436). -/
def rpcInitEnvelope (m : List (String × PyVal)) : PyVal :=
  PyVal.dict
    [("jsonrpc", PyVal.str "2.0"),
     ("id", (dictGet m "id").getD (PyVal.int 1)),
     ("result", PyVal.dict
       [("capabilities", PyVal.dict
         [("tools", PyVal.dict
           [("allowedTools", PyVal.list [PyVal.str "search", PyVal.str "fetch"])])]),
        ("serverInfo", PyVal.dict
         [("name", PyVal.str "GameBot MCP Server"),
          ("version", PyVal.str "1.0.0")])])]

/-- The JSON-RPC method-not-found envelope, code -32601, sent with HTTP 200
(lines 440-448). -/
def rpcMethodNotFound (m : List (String × PyVal)) : PyVal :=
  PyVal.dict
    [("jsonrpc", PyVal.str "2.0"),
     ("id", (dictGet m "id").getD (PyVal.int 1)),
     ("error", PyVal.dict
       [("code", PyVal.int (-32601)),
        ("message", PyVal.str "Method not found")])]

/-- The outer-exception body of handle_http (lines 551-558), reached when the
routing block itself raises - in the embedding, when request_data.get is
called on a non-dict request_data (line 421). -/
def internalErrorBody (msg now : String) : PyVal :=
  PyVal.dict
    [("status", PyVal.str "error"),
     ("error", PyVal.str ("Internal server error: " ++ msg)),
     ("timestamp", PyVal.str now)]

/-- Invocation of a matched tool (lines 456-549): the result is pushed
through the normalization chain, an exception through the error mapping.
A tool name that is not registered falls through to the default
404 Not Found response (lines 311-313). -/
def invokeTool (jp : String → Option PyVal) (u : Upstream) (now name : String)
    (args : PyVal) : RouterOutcome :=
  if toolNames.contains name then
    match callTool u now name args with
    | (Except.ok v, n) =>
      let p := normalizeResponse jp v now
      RouterOutcome.json p.1 p.2 n
    | (Except.error e, n) =>
      let p := errorResponse name e now
      RouterOutcome.json p.1 p.2 n
  else
    RouterOutcome.json 404 (PyVal.dict [("error", PyVal.str "Not Found")]) 0

/-- Path/method dispatch of handle_http (lines 307-453), applied to the
already-parsed request_data. Branch order follows the source. -/
def routeRequest (jp : String → Option PyVal) (u : Upstream)
    (now method path accept : String) (rd : PyVal) : RouterOutcome :=
  if path == "/health" && method == "GET" then
    invokeTool jp u now "health_check" (PyVal.dict [])
  else if path == "/tools" && method == "GET" then
    RouterOutcome.json 200 toolsListResponse 0
  else if path == "/search" && method == "POST" then
    invokeTool jp u now "search" rd
  else if path == "/fetch" && method == "POST" then
    invokeTool jp u now "fetch" rd
  else if (path == "/sse" || path == "/") && (method == "GET" || method == "POST") then
    if method == "GET" then
      if strContains accept.toLower "text/event-stream" then
        RouterOutcome.sseStream
      else
        RouterOutcome.json 200 rootInfo 0
    else
      match rd with
      | PyVal.dict m =>
        (match dictGet m "method" with
         | some (PyVal.str s) =>
           if s == "initialize" then RouterOutcome.json 200 (rpcInitEnvelope m) 0
           else RouterOutcome.json 200 (rpcMethodNotFound m) 0
         | _ => RouterOutcome.json 200 (rpcMethodNotFound m) 0)
      | _ =>
        RouterOutcome.json 500
          (internalErrorBody "request_data has no attribute get" now) 0
  else
    RouterOutcome.json 404 (PyVal.dict [("error", PyVal.str "Not Found")]) 0

/-- handle_http as a function of the transport-level request: method, path,
the Accept header and the raw body (`Option.none` models an absent or empty
body). -/
def handleHttp (jp : String → Option PyVal) (u : Upstream)
    (now method path accept : String) (body : Option String) : RouterOutcome :=
  routeRequest jp u now method path accept (requestData jp method body)

/-! ## Concrete fixtures

Mocked upstreams and parsing stubs used to instantiate the theorems on
concrete requests. `uOne` and `uFetch` mirror the repository's own test
fixtures (tests/conftest.py, tests/test_server.py). -/

/-- An upstream whose calls all succeed trivially. -/
def uNoop : Upstream :=
  ⟨Except.ok [], fun _ => Except.ok [], fun _ => Except.ok ⟨Option.none, Option.none⟩⟩

/-- An upstream whose search call raises a transport error. -/
def uErr : Upstream :=
  ⟨Except.error "connection error", fun _ => Except.ok [],
   fun _ => Except.ok ⟨Option.none, Option.none⟩⟩

/-- The attribute-shaped search item of the repository's mock_search_response
fixture. -/
def item123 : UpItem :=
  UpItem.obj ⟨some "file_123", some "test_document.txt",
    some [Chunk.obj (some "This is a test document content.")]⟩

/-- An upstream whose search returns exactly `item123`. -/
def uOne : Upstream :=
  ⟨Except.ok [item123], fun _ => Except.ok [],
   fun _ => Except.ok ⟨Option.none, Option.none⟩⟩

/-- An upstream mirroring the fetch-endpoint test fixture: one content chunk
and file metadata with a non-empty attributes mapping. -/
def uFetch : Upstream :=
  ⟨Except.ok [], fun _ => Except.ok [some "Full document content"],
   fun _ => Except.ok ⟨some "test_document.txt",
     some (PyVal.dict [("size", PyVal.int 1234)])⟩⟩

/-- A mapping-shaped search item that does carry an identifier, a display
name and a content chunk with text. -/
def itemMapAbc : UpItem :=
  UpItem.map ⟨some "abc", some "mydoc", some [Chunk.map (some "hello")]⟩

/-- A json.loads stub that fails on every input. -/
def jpNone : String → Option PyVal := fun _ => Option.none

/-- A json.loads stub mapping the body "Y" to a fetch request with a string
id that violates the required identifier format. -/
def jpIdStr : String → Option PyVal :=
  fun s => if s == "Y" then some (PyVal.dict [("id", PyVal.str "doc1")]) else Option.none

/-- A json.loads stub mapping the body "X" to a fetch request whose id is an
integer, not a string. -/
def jpIdInt : String → Option PyVal :=
  fun s => if s == "X" then some (PyVal.dict [("id", PyVal.int 5)]) else Option.none

/-! ## Helper lemmas -/

/-- Length of the Python slice s[:n]. -/
theorem pySlice_length (s : String) (n : Nat) : (pySlice s n).length = min n s.length := by
  show (s.data.take n).length = min n s.length
  simp [List.length_take]

/-- String concatenation adds lengths. -/
theorem strLength_append (s t : String) : (s ++ t).length = s.length + t.length := by
  cases s with
  | mk d1 =>
    cases t with
    | mk d2 =>
      show (d1 ++ d2).length = d1.length + d2.length
      exact List.length_append d1 d2

/-! ## Claim theorems -/

/-- C2: for every query string that is empty or consists only of whitespace,
the search handler returns a response whose results list is empty and issues
zero calls to the upstream vector store. -/
theorem search_blank_query_no_upstream (u : Upstream) (q : String)
    (hq : blankQuery q = true) :
    searchTool u q = (PyVal.dict [("results", PyVal.list [])], 0) := by
  simp [searchTool, hq]

/-- Witness for C2 at the whitespace-only query "   ". -/
theorem search_blank_query_no_upstream_witness :
    blankQuery "   " = true ∧
    searchTool uNoop "   " = (PyVal.dict [("results", PyVal.list [])], 0) :=
  ⟨rfl, search_blank_query_no_upstream uNoop "   " rfl⟩

/-- C4: for every non-blank query, if the upstream vector-store search call
raises any error, the search handler returns an empty result list instead of
propagating the exception. The handler's type (a plain pair rather than an
`Except`) reflects that it never raises for upstream errors. -/
theorem search_upstream_error_degrades (u : Upstream) (q msg : String)
    (hq : blankQuery q = false) (he : u.searchResp = Except.error msg) :
    searchTool u q = (PyVal.dict [("results", PyVal.list [])], 1) := by
  simp [searchTool, hq, he]

/-- Witness for C4 at the query "x" against an upstream raising a connection
error. -/
theorem search_upstream_error_degrades_witness :
    blankQuery "x" = false ∧
    uErr.searchResp = Except.error "connection error" ∧
    searchTool uErr "x" = (PyVal.dict [("results", PyVal.list [])], 1) :=
  ⟨rfl, rfl, search_upstream_error_degrades uErr "x" "connection error" rfl rfl⟩

/-- C5: GET /tools responds 200, but the body is the plain dictionary built
by lines 330-338 - it carries no JSON-RPC envelope (no jsonrpc, no result
key), and its tool entries use the key "parameters", not "inputSchema".
This contradicts the claim and the repository's own test
tests/test_server.py test_tools_endpoint, which asserts the JSON-RPC
envelope and inputSchema. -/
theorem tools_listing_shape (jp : String → Option PyVal) (u : Upstream)
    (now accept : String) :
    handleHttp jp u now "GET" "/tools" accept Option.none =
      RouterOutcome.json 200 toolsListResponse 0 ∧
    hasKeyB toolsListResponse "jsonrpc" = false ∧
    hasKeyB toolsListResponse "result" = false ∧
    (match getKey toolsListResponse "tools" with
     | some (PyVal.list l) =>
       l.all (fun t => hasKeyB t "parameters" && !(hasKeyB t "inputSchema"))
     | _ => false) = true :=
  ⟨rfl, rfl, rfl, rfl⟩

/-- C6: response normalization maps a None handler result to the body
status error / message "No response from tool", but the resulting HTTP
status is 200, not 500: the 500 assigned in the None branch (line 479) is a
dead store, unconditionally overwritten by status_code = 200 at line 503.
The timestamp is injected as the claim states. -/
theorem normalize_none_result_status (jp : String → Option PyVal) (now : String) :
    normalizeResponse jp PyVal.none now =
      (200, PyVal.dict
        [("status", PyVal.str "error"),
         ("message", PyVal.str "No response from tool"),
         ("timestamp", PyVal.str now)]) := rfl

/-- C3: for every non-blank query, every match returned by the search
handler arises from an upstream item, and its text field is exactly the
item's source content (the text content after the empty-content default of
lines 150-151) when that content is at most 200 characters, and the first
200 characters followed by "..." - 203 characters in total - when the
content is longer. -/
theorem search_snippet_bound (u : Upstream) (q : String) (m : PyVal)
    (hq : blankQuery q = false) (hm : m ∈ resultsOf (searchTool u q).1) :
    ∃ i item, m = searchMatch i item ∧
      ((effectiveText item).length ≤ 200 →
        getKey m "text" = some (PyVal.str (effectiveText item))) ∧
      (200 < (effectiveText item).length →
        getKey m "text" = some (PyVal.str (pySlice (effectiveText item) 200 ++ "...")) ∧
        (pySlice (effectiveText item) 200 ++ "...").length = 203) := by
  simp only [searchTool, hq, Bool.false_eq_true, if_false] at hm
  cases hres : u.searchResp with
  | error e =>
    rw [hres] at hm
    simp [resultsOf, getKey, dictGet] at hm
  | ok items =>
    rw [hres] at hm
    simp only [resultsOf, getKey, dictGet] at hm
    rcases List.mem_map.mp hm with ⟨p, _, hpe⟩
    refine ⟨p.1, p.2, hpe.symm, ?_, ?_⟩
    · intro h
      have hx : getKey (searchMatch p.1 p.2) "text"
          = some (PyVal.str (snippet (effectiveText p.2))) := rfl
      have hs : snippet (effectiveText p.2) = effectiveText p.2 := by
        unfold snippet
        rw [if_neg (by omega)]
      rw [← hpe] at *
      rw [hx, hs]
    · intro h
      have hx : getKey (searchMatch p.1 p.2) "text"
          = some (PyVal.str (snippet (effectiveText p.2))) := rfl
      have hs : snippet (effectiveText p.2)
          = pySlice (effectiveText p.2) 200 ++ "..." := by
        unfold snippet
        rw [if_pos h]
      constructor
      · rw [← hpe, hx, hs]
      · rw [strLength_append, pySlice_length, Nat.min_eq_left (Nat.le_of_lt h)]
        decide

/-- Witness for C3 at the repository's mock search fixture: a 32-character
content is returned verbatim. -/
theorem search_snippet_bound_witness :
    blankQuery "test" = false ∧
    ∃ i item, searchMatch 0 item123 = searchMatch i item ∧
      ((effectiveText item).length ≤ 200 →
        getKey (searchMatch 0 item123) "text" = some (PyVal.str (effectiveText item))) ∧
      (200 < (effectiveText item).length →
        getKey (searchMatch 0 item123) "text"
          = some (PyVal.str (pySlice (effectiveText item) 200 ++ "...")) ∧
        (pySlice (effectiveText item) 200 ++ "...").length = 203) :=
  ⟨rfl, search_snippet_bound uOne "test" (searchMatch 0 item123) rfl (List.Mem.head _)⟩

/-- C7: every successful fetch returns a document whose text is the
newline-join, in upstream order, of the text of those upstream content
chunks that carry text, and the literal placeholder "No content available"
when the upstream content list is empty. -/
theorem fetch_content_joined (u : Upstream) (id : String)
    (chunks : List (Option String)) (info : FileInfo)
    (hv : fetchIdInvalid id = false)
    (hc : u.contentResp id = Except.ok chunks)
    (hr : u.fileRetrieve id = Except.ok info) :
    ∃ d, fetchTool u id = (Except.ok d, 2) ∧
      getKey d "text" = some (PyVal.str
        (if chunks.isEmpty then "No content available"
         else String.intercalate "\n" (chunks.filterMap (fun c => c)))) := by
  have hft : fetchTool u id = (Except.ok (PyVal.dict
      [("id", PyVal.str id),
       ("title", PyVal.str (info.filename.getD ("Document " ++ id))),
       ("text", PyVal.str
         (if chunks.isEmpty then "No content available"
          else String.intercalate "\n" (chunks.filterMap (fun c => c)))),
       ("url", PyVal.str ("https://platform.openai.com/storage/files/" ++ id)),
       ("metadata", match info.attributes with
                    | some a => if pyTruthy a then a else PyVal.none
                    | Option.none => PyVal.none)]), 2) := by
    simp [fetchTool, hv, hc, hr]
  exact ⟨_, hft, rfl⟩

/-- Witness for C7 at the repository's fetch test fixture. -/
theorem fetch_content_joined_witness :
    fetchIdInvalid "file_123" = false ∧
    ∃ d, fetchTool uFetch "file_123" = (Except.ok d, 2) ∧
      getKey d "text" = some (PyVal.str
        (if ([some "Full document content"] : List (Option String)).isEmpty
         then "No content available"
         else String.intercalate "\n"
           (([some "Full document content"] : List (Option String)).filterMap (fun c => c)))) :=
  ⟨rfl, fetch_content_joined uFetch "file_123" [some "Full document content"]
    ⟨some "test_document.txt", some (PyVal.dict [("size", PyVal.int 1234)])⟩ rfl rfl rfl⟩

/-- C1, counterexample: a POST /fetch whose id argument is not a string (the
integer 5) is rejected by the library's argument validation with HTTP 422,
not with the HTTP 400 produced by the handler's own guard, although still
with zero upstream calls. -/
theorem fetch_nonstring_id_counterexample :
    handleHttp jpIdInt uNoop "T0" "POST" "/fetch" "" (some "X") =
      RouterOutcome.json 422 (PyVal.dict
        [("status", PyVal.str "error"),
         ("error", PyVal.str "Validation error"),
         ("timestamp", PyVal.str "T0"),
         ("details", missingArgDetails "id")]) 0 ∧
    ((422 : Nat) == 400) = false :=
  ⟨rfl, rfl⟩

/-- C1, amended: a POST /fetch whose id argument is a string that is empty
or does not start with "file_" responds 400 with the client-input error
detail and zero upstream calls; a POST /fetch whose id argument is not a
string fails argument validation with HTTP 422, likewise with zero upstream
calls. -/
theorem fetch_invalid_id_amended :
    (∀ (jp : String → Option PyVal) (u : Upstream) (now accept raw id : String),
      jp raw = some (PyVal.dict [("id", PyVal.str id)]) →
      fetchIdInvalid id = true →
      handleHttp jp u now "POST" "/fetch" accept (some raw) =
        RouterOutcome.json 400 (PyVal.dict
          [("status", PyVal.str "error"),
           ("error", PyVal.str "Invalid document ID format"),
           ("timestamp", PyVal.str now)]) 0) ∧
    (∀ (jp : String → Option PyVal) (u : Upstream) (now accept raw : String) (k : Int),
      jp raw = some (PyVal.dict [("id", PyVal.int k)]) →
      handleHttp jp u now "POST" "/fetch" accept (some raw) =
        RouterOutcome.json 422 (PyVal.dict
          [("status", PyVal.str "error"),
           ("error", PyVal.str "Validation error"),
           ("timestamp", PyVal.str now),
           ("details", missingArgDetails "id")]) 0) := by
  constructor
  · intro jp u now accept raw id hparse hbad
    have hrd : requestData jp "POST" (some raw) = PyVal.dict [("id", PyVal.str id)] := by
      simp [requestData, hparse]
    have hft : fetchTool u id
        = (Except.error (PyErr.httpExc 400 "Invalid document ID format"), 0) := by
      simp [fetchTool, hbad]
    calc handleHttp jp u now "POST" "/fetch" accept (some raw)
        = invokeTool jp u now "fetch" (requestData jp "POST" (some raw)) := rfl
      _ = invokeTool jp u now "fetch" (PyVal.dict [("id", PyVal.str id)]) := by rw [hrd]
      _ = (match fetchTool u id with
           | (Except.ok v, n) =>
             let p := normalizeResponse jp v now
             RouterOutcome.json p.1 p.2 n
           | (Except.error e, n) =>
             let p := errorResponse "fetch" e now
             RouterOutcome.json p.1 p.2 n) := rfl
      _ = RouterOutcome.json 400 (PyVal.dict
            [("status", PyVal.str "error"),
             ("error", PyVal.str "Invalid document ID format"),
             ("timestamp", PyVal.str now)]) 0 := by rw [hft]; rfl
  · intro jp u now accept raw k hparse
    have hrd : requestData jp "POST" (some raw) = PyVal.dict [("id", PyVal.int k)] := by
      simp [requestData, hparse]
    calc handleHttp jp u now "POST" "/fetch" accept (some raw)
        = invokeTool jp u now "fetch" (requestData jp "POST" (some raw)) := rfl
      _ = invokeTool jp u now "fetch" (PyVal.dict [("id", PyVal.int k)]) := by rw [hrd]
      _ = RouterOutcome.json 422 (PyVal.dict
            [("status", PyVal.str "error"),
             ("error", PyVal.str "Validation error"),
             ("timestamp", PyVal.str now),
             ("details", missingArgDetails "id")]) 0 := rfl

/-- Witness for C1 (amended) at the malformed string id "doc1" (HTTP 400,
zero upstream calls) and at the integer id 5 (HTTP 422, zero upstream
calls). -/
theorem fetch_invalid_id_amended_witness :
    jpIdStr "Y" = some (PyVal.dict [("id", PyVal.str "doc1")]) ∧
    fetchIdInvalid "doc1" = true ∧
    handleHttp jpIdStr uNoop "T0" "POST" "/fetch" "" (some "Y") =
      RouterOutcome.json 400 (PyVal.dict
        [("status", PyVal.str "error"),
         ("error", PyVal.str "Invalid document ID format"),
         ("timestamp", PyVal.str "T0")]) 0 ∧
    handleHttp jpIdInt uNoop "T1" "POST" "/fetch" "" (some "X") =
      RouterOutcome.json 422 (PyVal.dict
        [("status", PyVal.str "error"),
         ("error", PyVal.str "Validation error"),
         ("timestamp", PyVal.str "T1"),
         ("details", missingArgDetails "id")]) 0 :=
  ⟨rfl, rfl,
   fetch_invalid_id_amended.1 jpIdStr uNoop "T0" "" "Y" "doc1" rfl rfl,
   fetch_invalid_id_amended.2 jpIdInt uNoop "T1" "" "X" 5 rfl⟩

/-- C8, counterexample: a mapping-shaped upstream item carrying file_id
"abc", filename "mydoc" and a content chunk with text "hello" is not
extracted uniformly with the object shape: getattr on a plain mapping yields
the defaults, so the match gets the synthesized id "vs_0", the default title
"Document 1", and the placeholder text, instead of the item's own values. -/
theorem search_map_item_counterexample :
    getKey (searchMatch 0 itemMapAbc) "id" = some (PyVal.str "vs_0") ∧
    getKey (searchMatch 0 itemMapAbc) "title" = some (PyVal.str "Document 1") ∧
    getKey (searchMatch 0 itemMapAbc) "text" = some (PyVal.str "No content available") ∧
    (("vs_0" : String) == "abc") = false ∧
    (("Document 1" : String) == "mydoc") = false :=
  ⟨rfl, rfl, rfl, rfl, rfl⟩

/-- C8, amended: item identifier and display name are read through attribute
access only - an object-shaped item uses its file_id and filename attributes
with the defaults "vs_(index)" and "Document (index+1)" when absent, while a
mapping-shaped item always falls back to those defaults and to empty
content. Only the first content chunk is read under both shapes (attribute
or mapping), and the text defaults to "No content available" when the
content list is empty or the first chunk lacks text. -/
theorem search_item_extraction_amended (i : Nat) (f : ItemFields) (c : Chunk)
    (t : String) :
    itemId i (UpItem.obj f) = f.file_id.getD ("vs_" ++ toString i) ∧
    itemTitle i (UpItem.obj f) = f.filename.getD ("Document " ++ toString (i + 1)) ∧
    itemId i (UpItem.map f) = "vs_" ++ toString i ∧
    itemTitle i (UpItem.map f) = "Document " ++ toString (i + 1) ∧
    itemChunks (UpItem.map f) = [] ∧
    effectiveText (UpItem.map f) = "No content available" ∧
    chunkText (Chunk.obj (some t)) = t ∧
    chunkText (Chunk.map (some t)) = t ∧
    chunkText (Chunk.obj Option.none) = "" ∧
    chunkText (Chunk.map Option.none) = "" ∧
    effectiveText (UpItem.obj ⟨f.file_id, f.filename, some []⟩) = "No content available" ∧
    effectiveText (UpItem.obj ⟨f.file_id, f.filename, some [c]⟩)
      = (if chunkText c == "" then "No content available" else chunkText c) ∧
    getKey (searchMatch i (UpItem.obj f)) "text"
      = some (PyVal.str (snippet (effectiveText (UpItem.obj f)))) :=
  ⟨rfl, rfl, rfl, rfl, rfl, rfl, rfl, rfl, rfl, rfl, rfl, rfl, rfl⟩

/-- C9, counterexample: the 404 response for an unmatched path/method
combination is the default body with only an error field - it carries no
timestamp, contradicting the claim that every error response includes one. -/
theorem unmatched_404_counterexample :
    handleHttp jpNone uNoop "T0" "GET" "/nope" "" Option.none =
      RouterOutcome.json 404 (PyVal.dict [("error", PyVal.str "Not Found")]) 0 ∧
    hasKeyB (PyVal.dict [("error", PyVal.str "Not Found")]) "timestamp" = false :=
  ⟨rfl, rfl⟩

/-- C9, amended: every error response produced by the tool-invocation error
mapping is JSON with status error, a human-readable error field and a
timestamp; the default 404 Not Found response for unmatched path/method
combinations is JSON with an error field but carries no timestamp. -/
theorem error_responses_amended :
    (∀ (name : String) (e : PyErr) (now : String),
      hasKeyB (errorResponse name e now).2 "error" = true ∧
      getKey (errorResponse name e now).2 "timestamp" = some (PyVal.str now) ∧
      getKey (errorResponse name e now).2 "status" = some (PyVal.str "error")) ∧
    (handleHttp jpNone uNoop "T0" "GET" "/nomatch" "" Option.none =
      RouterOutcome.json 404 (PyVal.dict [("error", PyVal.str "Not Found")]) 0 ∧
     hasKeyB (PyVal.dict [("error", PyVal.str "Not Found")]) "error" = true ∧
     hasKeyB (PyVal.dict [("error", PyVal.str "Not Found")]) "timestamp" = false) :=
  ⟨fun _ e _ => by cases e <;> exact ⟨rfl, rfl, rfl⟩, rfl, rfl, rfl⟩

/-- C10: a POST to /search or /fetch whose non-empty body fails JSON parsing
is routed with the empty argument mapping, making it indistinguishable from
a request whose body was the empty object, and it surfaces as a 422
missing-required-field validation error with zero upstream calls. -/
theorem invalid_body_empty_dict (jp : String → Option PyVal) (u : Upstream)
    (now accept raw : String) (hraw : jp raw = Option.none) :
    (handleHttp jp u now "POST" "/search" accept (some raw) =
       handleHttp jp u now "POST" "/search" accept Option.none) ∧
    (handleHttp jp u now "POST" "/fetch" accept (some raw) =
       handleHttp jp u now "POST" "/fetch" accept Option.none) ∧
    handleHttp jp u now "POST" "/search" accept (some raw) =
      RouterOutcome.json 422 (PyVal.dict
        [("status", PyVal.str "error"),
         ("error", PyVal.str "Validation error"),
         ("timestamp", PyVal.str now),
         ("details", missingArgDetails "query")]) 0 ∧
    handleHttp jp u now "POST" "/fetch" accept (some raw) =
      RouterOutcome.json 422 (PyVal.dict
        [("status", PyVal.str "error"),
         ("error", PyVal.str "Validation error"),
         ("timestamp", PyVal.str now),
         ("details", missingArgDetails "id")]) 0 := by
  have hrd : requestData jp "POST" (some raw) = PyVal.dict [] := by
    simp [requestData, hraw]
  refine ⟨?_, ?_, ?_, ?_⟩
  · show routeRequest jp u now "POST" "/search" accept (requestData jp "POST" (some raw))
        = routeRequest jp u now "POST" "/search" accept (requestData jp "POST" Option.none)
    rw [hrd]; rfl
  · show routeRequest jp u now "POST" "/fetch" accept (requestData jp "POST" (some raw))
        = routeRequest jp u now "POST" "/fetch" accept (requestData jp "POST" Option.none)
    rw [hrd]; rfl
  · show routeRequest jp u now "POST" "/search" accept (requestData jp "POST" (some raw)) = _
    rw [hrd]; rfl
  · show routeRequest jp u now "POST" "/fetch" accept (requestData jp "POST" (some raw)) = _
    rw [hrd]; rfl

/-- Witness for C10 at the malformed body "(bad": the request is served
exactly like an empty-object body and yields the 422 validation error. -/
theorem invalid_body_empty_dict_witness :
    jpNone "(bad" = Option.none ∧
    (handleHttp jpNone uNoop "T0" "POST" "/search" "" (some "(bad") =
       handleHttp jpNone uNoop "T0" "POST" "/search" "" Option.none) ∧
    handleHttp jpNone uNoop "T0" "POST" "/search" "" (some "(bad") =
      RouterOutcome.json 422 (PyVal.dict
        [("status", PyVal.str "error"),
         ("error", PyVal.str "Validation error"),
         ("timestamp", PyVal.str "T0"),
         ("details", missingArgDetails "query")]) 0 :=
  ⟨rfl,
   (invalid_body_empty_dict jpNone uNoop "T0" "" "(bad" rfl).1,
   (invalid_body_empty_dict jpNone uNoop "T0" "" "(bad" rfl).2.2.1⟩

end Gamebot



